import Mathlib

/-!
Shallow embedding of `tfx_bsl/tfxio/tensor_adapter.py`: the TensorAdapter that
converts an Arrow RecordBatch into dense / varlen-sparse tensor values, driven
by per-output TensorRepresentations.  Every raise site of the Python source is
a distinct constructor of `AdapterError`; fallible code returns `Except`.
-/

set_option autoImplicit false

namespace TensorAdapterModel

/-- Arrow data types relevant to the adapter: the supported scalar types
(integers, floats, binary), two unsupported scalar kinds (`boolean`, `utf8`)
and nested list types. -/
inductive ArrowType : Type where
  | int8 | int16 | int32 | int64
  | uint8 | uint16 | uint32 | uint64
  | float32 | float64
  | binary
  | boolean
  | utf8
  | list (value_type : ArrowType)
  deriving DecidableEq, Repr

/-- Embeds `pa.types.is_integer`. -/
def ArrowType.isInteger : ArrowType → Bool
  | .int8 | .int16 | .int32 | .int64 | .uint8 | .uint16 | .uint32 | .uint64 => true
  | _ => false

/-- Embeds `pa.types.is_floating`. -/
def ArrowType.isFloating : ArrowType → Bool
  | .float32 | .float64 => true
  | _ => false

/-- Embeds `pa.types.is_binary`. -/
def ArrowType.isBinary : ArrowType → Bool
  | .binary => true
  | _ => false

/-- Embeds `pa.types.is_list`. -/
def ArrowType.isList : ArrowType → Bool
  | .list _ => true
  | _ => false

/-- The `np.iinfo(...).min` bound of a concrete integer width. -/
def iinfoMin : ArrowType → Int
  | .int8 => -(2 ^ 7)
  | .int16 => -(2 ^ 15)
  | .int32 => -(2 ^ 31)
  | .int64 => -(2 ^ 63)
  | _ => 0

/-- The `np.iinfo(...).max` bound of a concrete integer width. -/
def iinfoMax : ArrowType → Int
  | .int8 => 2 ^ 7 - 1
  | .int16 => 2 ^ 15 - 1
  | .int32 => 2 ^ 31 - 1
  | .int64 => 2 ^ 63 - 1
  | .uint8 => 2 ^ 8 - 1
  | .uint16 => 2 ^ 16 - 1
  | .uint32 => 2 ^ 32 - 1
  | .uint64 => 2 ^ 64 - 1
  | _ => 0

/-- TensorFlow dtypes produced by `_ArrowTypeToTfDtype`. -/
inductive TfDType : Type where
  | tf_int8 | tf_int16 | tf_int32 | tf_int64
  | tf_uint8 | tf_uint16 | tf_uint32 | tf_uint64
  | tf_float32 | tf_float64
  | tf_string
  deriving DecidableEq, Repr

/-- Embeds `_ArrowTypeToTfDtype` (`tf.dtypes.as_dtype(arrow_type.to_pandas_dtype())`);
`none` on types the adapter never converts (it is only applied to supported
scalar value types, after a successful `CanHandle`). -/
def _ArrowTypeToTfDtype : ArrowType → Option TfDType
  | .int8 => some .tf_int8
  | .int16 => some .tf_int16
  | .int32 => some .tf_int32
  | .int64 => some .tf_int64
  | .uint8 => some .tf_uint8
  | .uint16 => some .tf_uint16
  | .uint32 => some .tf_uint32
  | .uint64 => some .tf_uint64
  | .float32 => some .tf_float32
  | .float64 => some .tf_float64
  | .binary => some .tf_string
  | _ => none

/-- A scalar cell value.  Floating values are carried opaquely (the adapter
only moves them, never computes with them), byte strings as byte lists. -/
inductive Value : Type where
  | intV (v : Int)
  | floatV (bits : Int)
  | bytesV (bs : List Nat)
  deriving DecidableEq, Repr

/-- One Arrow schema field: a name and a type. -/
structure Field where
  name : String
  type : ArrowType
  deriving DecidableEq, Repr

/-- An Arrow schema: the ordered sequence of fields. -/
abbrev Schema := List Field

/-- Embeds `pa.Schema.field_by_name`: `none` when the name is absent. -/
def field_by_name (schema : Schema) (name : String) : Option Field :=
  schema.find? (fun f => f.name == name)

/-- Embeds `pa.Schema.get_field_index`: the index of the named field, `-1`
when absent. -/
def get_field_index (schema : Schema) (name : String) : Int :=
  match schema.findIdx? (fun f => f.name == name) with
  | some i => (i : Int)
  | none => -1

/-- Embeds `schema[i]` field access by index. -/
def schemaField (schema : Schema) (i : Int) : Option Field :=
  if i < 0 then none else schema.get? i.toNat

/-- A depth-1 list column: one optional (possibly null) list of scalars per
row. -/
abbrev ListColumn := List (Option (List Value))

/-- An Arrow RecordBatch: a schema and the positionally aligned columns. -/
structure RecordBatch where
  schema : Schema
  columns : List ListColumn
  deriving DecidableEq, Repr

/-- Embeds `record_batch.column(i)`. -/
def recordBatchColumn (rb : RecordBatch) (i : Nat) : Except String ListColumn :=
  match rb.columns.get? i with
  | some col => .ok col
  | none => .error "column index out of range"

/-- The `TensorRepresentation.DefaultValue` proto: a oneof over the four value
kinds, or unset. -/
inductive DefaultValue : Type where
  | int_value (v : Int)
  | uint_value (v : Nat)
  | float_value (bits : Int)
  | bytes_value (bs : List Nat)
  | unset
  deriving DecidableEq, Repr

/-- Embeds `default_value_proto.WhichOneof("kind")`. -/
def DefaultValue.whichOneof : DefaultValue → Option String
  | .int_value _ => some "int_value"
  | .uint_value _ => some "uint_value"
  | .float_value _ => some "float_value"
  | .bytes_value _ => some "bytes_value"
  | .unset => none

/-- The `dense_tensor` case of a TensorRepresentation: column name, unbatched
dims, and the optional default value (`none` iff `HasField` is false). -/
structure DenseTensorRep where
  column_name : String
  dims : List Nat
  default_value : Option DefaultValue
  deriving DecidableEq, Repr

/-- The `TensorRepresentation` proto: a oneof over the representation kinds
(`unset` models a proto whose `kind` oneof is not set). -/
inductive TensorRepresentation : Type where
  | denseKind (rep : DenseTensorRep)
  | varlenSparseKind (column_name : String)
  | unset
  deriving DecidableEq, Repr

/-- Proto access `tensor_representation.dense_tensor`: the set message, or the
all-defaults message when the oneof holds another case. -/
def TensorRepresentation.dense_tensor : TensorRepresentation → DenseTensorRep
  | .denseKind rep => rep
  | _ => { column_name := "", dims := [], default_value := none }

/-- Proto access `tensor_representation.varlen_sparse_tensor.column_name`. -/
def TensorRepresentation.varlen_sparse_column_name : TensorRepresentation → String
  | .varlenSparseKind column_name => column_name
  | _ => ""

/-- One constructor per raise site of the Python source. -/
inductive AdapterError : Type where
  | unableToHandle (tensor_name : String) (rep : TensorRepresentation)
  | noCompatibleHandler (tensor_name : String) (rep : TensorRepresentation)
      (arrow_schema : Schema)
  | attributeError
  | indexError
  | unsupportedDtype
  | incompatibleDefaultValue (kind : Option String) (value_type : ArrowType)
  | integerDefaultOutOfRange (value : Int) (value_type : ArrowType)
  | sizeMismatch (expected actual : Nat)
  | expectedSameSchema
  | columnIndexOutOfRange
  | errorHandlingTensor (tensor_name : String) (cause : AdapterError)
  deriving DecidableEq, Repr

/-- Embeds `_GetNestDepthAndValueType` on a type: unwrap list layers, counting
them, until a non-list type is reached. -/
def nestDepthAndValueTypeOfType : ArrowType → Nat × ArrowType
  | .list t =>
      let p := nestDepthAndValueTypeOfType t
      (p.1 + 1, p.2)
  | t => (0, t)

/-- Embeds `_GetNestDepthAndValueType(arrow_field)`. -/
def _GetNestDepthAndValueType (arrow_field : Field) : Nat × ArrowType :=
  nestDepthAndValueTypeOfType arrow_field.type

/-- Embeds `_IsSupportedArrowValueType`. -/
def _IsSupportedArrowValueType (arrow_type : ArrowType) : Bool :=
  arrow_type.isInteger || arrow_type.isFloating || arrow_type.isBinary

/-- Embeds `_GetAllowedDefaultValue`: validate the configured default against
the column's value type, with the integer range check against the concrete
width. -/
def _GetAllowedDefaultValue (value_type : ArrowType) (default_value_proto : DefaultValue) :
    Except AdapterError Value :=
  match default_value_proto with
  | .int_value value =>
      if value_type.isInteger then
        if value ≤ iinfoMax value_type ∧ iinfoMin value_type ≤ value then
          .ok (.intV value)
        else
          .error (.integerDefaultOutOfRange value value_type)
      else
        .error (.incompatibleDefaultValue (DefaultValue.int_value value).whichOneof value_type)
  | .uint_value value =>
      if value_type.isInteger then
        if (value : Int) ≤ iinfoMax value_type ∧ iinfoMin value_type ≤ (value : Int) then
          .ok (.intV (value : Int))
        else
          .error (.integerDefaultOutOfRange (value : Int) value_type)
      else
        .error (.incompatibleDefaultValue (DefaultValue.uint_value value).whichOneof value_type)
  | .float_value bits =>
      if value_type.isFloating then
        .ok (.floatV bits)
      else
        .error (.incompatibleDefaultValue (DefaultValue.float_value bits).whichOneof value_type)
  | .bytes_value bs =>
      if value_type.isBinary then
        .ok (.bytesV bs)
      else
        .error (.incompatibleDefaultValue (DefaultValue.bytes_value bs).whichOneof value_type)
  | .unset => .error (.incompatibleDefaultValue DefaultValue.unset.whichOneof value_type)

/-- Embeds `_GetDefaultFill`: a buffer of `prod(unbatched_shape)` copies of the
validated default value. -/
def _GetDefaultFill (unbatched_shape : List Nat) (value_type : ArrowType)
    (default_value_proto : DefaultValue) : Except AdapterError (List Value) := do
  let size := unbatched_shape.prod
  let v ← _GetAllowedDefaultValue value_type default_value_proto
  .ok (List.replicate size v)

/-- A static type/shape signature: either a `tf.TensorSpec` (each dim known or
unbound) or a rank-2 `tf.SparseTensorSpec`, both carrying the element dtype. -/
inductive TypeSpec : Type where
  | tensorSpec (shape : List (Option Nat)) (dtype : TfDType)
  | sparseSpec (shape : List (Option Nat)) (dtype : TfDType)
  deriving DecidableEq, Repr

/-- A converted dense value: its concrete shape, dtype, and row-major flat
values. -/
structure DenseTensorValue where
  shape : List Nat
  dtype : TfDType
  values : List Value
  deriving DecidableEq, Repr

/-- A converted sparse value: `(indices, values, dense_shape)` plus the dtype. -/
structure SparseTensorValue where
  indices : List (Nat × Nat)
  values : List Value
  dense_shape : Nat × Nat
  dtype : TfDType
  deriving DecidableEq, Repr

/-- A converted output value. -/
inductive TensorValue : Type where
  | dense (t : DenseTensorValue)
  | sparse (s : SparseTensorValue)
  deriving DecidableEq, Repr

/-- One spec dimension is compatible with a concrete dimension when it is
unbound or equal.  -/
def dimCompatible : Option Nat → Nat → Bool
  | none, _ => true
  | some d, n => d == n

/-- A spec shape is compatible with a concrete shape when ranks agree and each
dimension is compatible. -/
def shapeCompatible : List (Option Nat) → List Nat → Bool
  | [], [] => true
  | d :: spec, n :: shape => dimCompatible d n && shapeCompatible spec shape
  | _, _ => false

/-- Embeds `tf.TypeSpec.is_compatible_with` on converted values. -/
def TypeSpec.isCompatibleWith : TypeSpec → TensorValue → Bool
  | .tensorSpec shape dtype, .dense t => shapeCompatible shape t.shape && dtype == t.dtype
  | .sparseSpec shape dtype, .sparse s =>
      shapeCompatible shape [s.dense_shape.1, s.dense_shape.2] && dtype == s.dtype
  | _, _ => false

/-- Precomputed fields of `_BaseDenseTensorHandler`: column index, dtype, the
unbatched shape (`self._shape[1:]`) and the unbatched flat length. -/
structure DenseHandlerData where
  column_index : Nat
  dtype : TfDType
  unbatched_shape : List Nat
  unbatched_flat_len : Nat
  deriving DecidableEq, Repr

/-- A constructed type handler: plain dense, default-filling dense, or varlen
sparse. -/
inductive TypeHandler : Type where
  | denseTensor (h : DenseHandlerData)
  | defaultFillingDenseTensor (h : DenseHandlerData) (default_fill : List Value)
  | varlenSparseTensor (column_index : Nat) (dtype : TfDType)
  deriving DecidableEq, Repr

/-- Embeds the `type_spec` property of each handler. -/
def TypeHandler.type_spec : TypeHandler → TypeSpec
  | .denseTensor h => .tensorSpec (none :: h.unbatched_shape.map some) h.dtype
  | .defaultFillingDenseTensor h _ => .tensorSpec (none :: h.unbatched_shape.map some) h.dtype
  | .varlenSparseTensor _ dtype => .sparseSpec [none, none] dtype

/-- Embeds `pa.ListArray.flatten()`: concatenate the non-null row lists (null
rows are dropped). -/
def listArrayFlatten (list_array : ListColumn) : List Value :=
  (list_array.filterMap id).flatten

/-- Embeds `_BaseDenseTensorHandler._ListArrayToTensor`: flatten, check the
element count against `batch_size * unbatched_flat_len`, reshape. -/
def _ListArrayToTensor (h : DenseHandlerData) (list_array : ListColumn) :
    Except AdapterError DenseTensorValue :=
  let values := listArrayFlatten list_array
  let batch_size := list_array.length
  let expected_num_elements := batch_size * h.unbatched_flat_len
  if values.length ≠ expected_num_elements then
    .error (.sizeMismatch expected_num_elements values.length)
  else
    .ok { shape := batch_size :: h.unbatched_shape, dtype := h.dtype, values := values }

/-- Modelled from the spec: `array_util.FillNullLists(column, fill)` (from
`tfx_bsl.arrow.array_util`, whose implementation is not under `src/`) replaces
every null/missing row-list of the column with the given filler list and
leaves non-null rows unchanged. -/
def FillNullLists (column : ListColumn) (fill : List Value) : ListColumn :=
  column.map (fun row => some (row.getD fill))

/-- The length of a row, a null row counting as an empty list. -/
def rowLength (row : Option (List Value)) : Nat := (row.getD []).length

/-- Coordinates `(r, p)` for rows of the given lengths, starting at row `r`,
ordered by row then position. -/
def cooFrom (r : Nat) : List Nat → List (Nat × Nat)
  | [] => []
  | len :: rest => ((List.range len).map fun p => (r, p)) ++ cooFrom (r + 1) rest

/-- Modelled from the spec: `array_util.CooFromListArray(array)` (from
`tfx_bsl.arrow.array_util`, not under `src/`): for each row `r` (nulls treated
as empty lists) and each position `p` in that row, emit coordinate `(r, p)`,
ordered by row then position; the dense shape is (batch size, maximum row
length, 0 when the batch is empty). -/
def CooFromListArray (column : ListColumn) : List (Nat × Nat) × (Nat × Nat) :=
  (cooFrom 0 (column.map rowLength),
   (column.length, (column.map rowLength).foldr max 0))

/-- Embeds `GetTensor` of the three handler kinds (the varlen sparse case uses
the spec-modelled `CooFromListArray`; its values buffer is
`np.asarray(array.flatten())`). -/
def TypeHandler.GetTensor : TypeHandler → RecordBatch → Except AdapterError TensorValue
  | .denseTensor h, record_batch =>
      match record_batch.columns.get? h.column_index with
      | none => .error .columnIndexOutOfRange
      | some column =>
          match _ListArrayToTensor h column with
          | .error e => .error e
          | .ok t => .ok (.dense t)
  | .defaultFillingDenseTensor h default_fill, record_batch =>
      match record_batch.columns.get? h.column_index with
      | none => .error .columnIndexOutOfRange
      | some column =>
          match _ListArrayToTensor h (FillNullLists column default_fill) with
          | .error e => .error e
          | .ok t => .ok (.dense t)
  | .varlenSparseTensor column_index dtype, record_batch =>
      match record_batch.columns.get? column_index with
      | none => .error .columnIndexOutOfRange
      | some column =>
          let coo := CooFromListArray column
          .ok (.sparse { indices := coo.1, values := listArrayFlatten column,
                         dense_shape := coo.2, dtype := dtype })

/-- Embeds `_BaseDenseTensorHandler.BaseCanHandle`; accessing `.type` on the
`None` returned by `field_by_name` for an absent column raises
(`attributeError`). -/
def BaseCanHandle (arrow_schema : Schema) (tensor_representation : TensorRepresentation) :
    Except AdapterError Bool :=
  match field_by_name arrow_schema tensor_representation.dense_tensor.column_name with
  | none => .error .attributeError
  | some f =>
      let dv := _GetNestDepthAndValueType f
      .ok (dv.1 == 1 && _IsSupportedArrowValueType dv.2)

/-- Embeds `_DenseTensorHandler.CanHandle`: base check and no default value. -/
def DenseTensorHandlerCanHandle (arrow_schema : Schema)
    (tensor_representation : TensorRepresentation) : Except AdapterError Bool := do
  let base ← BaseCanHandle arrow_schema tensor_representation
  .ok (base && tensor_representation.dense_tensor.default_value.isNone)

/-- Embeds `_DefaultFillingDenseTensorHandler.CanHandle`: base check and a
default value present. -/
def DefaultFillingCanHandle (arrow_schema : Schema)
    (tensor_representation : TensorRepresentation) : Except AdapterError Bool := do
  let base ← BaseCanHandle arrow_schema tensor_representation
  .ok (base && tensor_representation.dense_tensor.default_value.isSome)

/-- Embeds `_VarLenSparseTensorHandler.CanHandle`. -/
def VarLenSparseCanHandle (arrow_schema : Schema)
    (tensor_representation : TensorRepresentation) : Except AdapterError Bool :=
  match field_by_name arrow_schema tensor_representation.varlen_sparse_column_name with
  | none => .error .attributeError
  | some f =>
      let dv := _GetNestDepthAndValueType f
      .ok (dv.1 == 1 && _IsSupportedArrowValueType dv.2)

/-- Embeds `_BaseDenseTensorHandler.__init__`: resolve the column index by
name, derive the dtype, record unbatched shape and flat length. -/
def mkBaseDenseTensorHandler (arrow_schema : Schema)
    (tensor_representation : TensorRepresentation) : Except AdapterError DenseHandlerData :=
  let dense_rep := tensor_representation.dense_tensor
  let column_index := get_field_index arrow_schema dense_rep.column_name
  match schemaField arrow_schema column_index with
  | none => .error .indexError
  | some f =>
      match _ArrowTypeToTfDtype (_GetNestDepthAndValueType f).2 with
      | none => .error .unsupportedDtype
      | some dtype =>
          .ok { column_index := column_index.toNat, dtype := dtype,
                unbatched_shape := dense_rep.dims,
                unbatched_flat_len := dense_rep.dims.prod }

/-- Embeds `_DenseTensorHandler.__init__` (just the base initializer). -/
def mkDenseTensorHandler (arrow_schema : Schema)
    (tensor_representation : TensorRepresentation) : Except AdapterError TypeHandler := do
  let base ← mkBaseDenseTensorHandler arrow_schema tensor_representation
  .ok (.denseTensor base)

/-- Embeds `_DefaultFillingDenseTensorHandler.__init__`: the base initializer
plus the precomputed default fill buffer. -/
def mkDefaultFillingDenseTensorHandler (arrow_schema : Schema)
    (tensor_representation : TensorRepresentation) : Except AdapterError TypeHandler := do
  let base ← mkBaseDenseTensorHandler arrow_schema tensor_representation
  match schemaField arrow_schema
      (get_field_index arrow_schema tensor_representation.dense_tensor.column_name) with
  | none => .error .indexError
  | some f => do
      let default_fill ← _GetDefaultFill base.unbatched_shape (_GetNestDepthAndValueType f).2
        (tensor_representation.dense_tensor.default_value.getD .unset)
      .ok (.defaultFillingDenseTensor base default_fill)

/-- Embeds `_VarLenSparseTensorHandler.__init__`. -/
def mkVarLenSparseTensorHandler (arrow_schema : Schema)
    (tensor_representation : TensorRepresentation) : Except AdapterError TypeHandler :=
  let column_index := get_field_index arrow_schema
    tensor_representation.varlen_sparse_column_name
  match schemaField arrow_schema column_index with
  | none => .error .indexError
  | some f =>
      match _ArrowTypeToTfDtype (_GetNestDepthAndValueType f).2 with
      | none => .error .unsupportedDtype
      | some dtype => .ok (.varlenSparseTensor column_index.toNat dtype)

/-- One registered handler kind: its static `CanHandle` predicate and its
initializer. -/
structure HandlerEntry where
  CanHandle : Schema → TensorRepresentation → Except AdapterError Bool
  init : Schema → TensorRepresentation → Except AdapterError TypeHandler

/-- The `_DenseTensorHandler` registry entry. -/
def denseTensorHandlerEntry : HandlerEntry :=
  { CanHandle := DenseTensorHandlerCanHandle, init := mkDenseTensorHandler }

/-- The `_DefaultFillingDenseTensorHandler` registry entry. -/
def defaultFillingHandlerEntry : HandlerEntry :=
  { CanHandle := DefaultFillingCanHandle, init := mkDefaultFillingDenseTensorHandler }

/-- The `_VarLenSparseTensorHandler` registry entry. -/
def varLenSparseHandlerEntry : HandlerEntry :=
  { CanHandle := VarLenSparseCanHandle, init := mkVarLenSparseTensorHandler }

/-- Embeds `_TYPE_HANDLER_MAP.get(rep.WhichOneof("kind"))`: the ordered
candidate handlers for a representation kind (`none` for an unset kind). -/
def _TYPE_HANDLER_MAP : TensorRepresentation → Option (List HandlerEntry)
  | .denseKind _ => some [denseTensorHandlerEntry, defaultFillingHandlerEntry]
  | .varlenSparseKind _ => some [varLenSparseHandlerEntry]
  | .unset => none

/-- The inner loop of `_BuildTypeHandlers`: try candidates in list order,
instantiate the first whose `CanHandle` accepts; `none` when all reject. -/
def findCompatibleHandler (arrow_schema : Schema) (rep : TensorRepresentation) :
    List HandlerEntry → Except AdapterError (Option TypeHandler)
  | [] => .ok none
  | entry :: rest => do
      let can ← entry.CanHandle arrow_schema rep
      if can then do
        let h ← entry.init arrow_schema rep
        .ok (some h)
      else
        findCompatibleHandler arrow_schema rep rest

/-- Embeds `_BuildTypeHandlers`: dispatch each output to its kind's candidate
list, failing on an unset kind or when every candidate rejects. -/
def _BuildTypeHandlers (tensor_representations : List (String × TensorRepresentation))
    (arrow_schema : Schema) : Except AdapterError (List (String × TypeHandler)) :=
  match tensor_representations with
  | [] => .ok []
  | (tensor_name, rep) :: rest =>
      match _TYPE_HANDLER_MAP rep with
      | none => .error (.unableToHandle tensor_name rep)
      | some potential_handlers => do
          match ← findCompatibleHandler arrow_schema rep potential_handlers with
          | none => .error (.noCompatibleHandler tensor_name rep arrow_schema)
          | some h => do
              let rest_handlers ← _BuildTypeHandlers rest arrow_schema
              .ok ((tensor_name, h) :: rest_handlers)

/-- The TensorAdapterConfig: the Arrow schema and the ordered output
representations. -/
structure TensorAdapterConfig where
  arrow_schema : Schema
  tensor_representations : List (String × TensorRepresentation)

/-- A constructed TensorAdapter: the bound schema and one handler per output. -/
structure TensorAdapter where
  arrow_schema : Schema
  type_handlers : List (String × TypeHandler)
  deriving DecidableEq, Repr

/-- Embeds `TensorAdapter.__init__`. -/
def TensorAdapter.build (config : TensorAdapterConfig) : Except AdapterError TensorAdapter := do
  let handlers ← _BuildTypeHandlers config.tensor_representations config.arrow_schema
  .ok { arrow_schema := config.arrow_schema, type_handlers := handlers }

/-- Embeds `TensorAdapter.TypeSpecs`. -/
def TensorAdapter.TypeSpecs (a : TensorAdapter) : List (String × TypeSpec) :=
  a.type_handlers.map (fun nh => (nh.1, nh.2.type_spec))

/-- The conversion loop of `ToBatchTensors`: run each handler in order,
wrapping any failure with the output's name, fail-fast. -/
def runTypeHandlers (record_batch : RecordBatch) :
    List (String × TypeHandler) → Except AdapterError (List (String × TensorValue))
  | [] => .ok []
  | (tensor_name, h) :: rest =>
      match h.GetTensor record_batch with
      | .error e => .error (.errorHandlingTensor tensor_name e)
      | .ok v => do
          let rest_result ← runTypeHandlers record_batch rest
          .ok ((tensor_name, v) :: rest_result)

/-- Embeds `TensorAdapter.ToBatchTensors`: the structural schema equality
check, then the per-output conversion loop. -/
def TensorAdapter.ToBatchTensors (a : TensorAdapter) (record_batch : RecordBatch) :
    Except AdapterError (List (String × TensorValue)) :=
  if record_batch.schema = a.arrow_schema then
    runTypeHandlers record_batch a.type_handlers
  else
    .error .expectedSameSchema

/-! Helper lemmas -/

theorem listArrayFlatten_map_some (rows : List (List Value)) :
    listArrayFlatten (rows.map some) = rows.flatten := by
  simp [listArrayFlatten]

theorem listArrayFlatten_eq_flatten_getD (column : ListColumn) :
    listArrayFlatten column = (column.map (fun row => row.getD [])).flatten := by
  induction column with
  | nil => rfl
  | cons row rest ih =>
      cases row with
      | none =>
          simp only [listArrayFlatten] at ih ⊢
          simp only [List.filterMap_cons, id_eq, List.map_cons, Option.getD_none,
            List.flatten_cons, List.nil_append]
          exact ih
      | some xs =>
          simp only [listArrayFlatten] at ih ⊢
          simp only [List.filterMap_cons, id_eq, List.map_cons, Option.getD_some,
            List.flatten_cons]
          rw [ih]

theorem flatten_length_const (rows : List (List Value)) (k : Nat)
    (hrows : ∀ row ∈ rows, row.length = k) : rows.flatten.length = rows.length * k := by
  induction rows with
  | nil => simp
  | cons row rest ih =>
      have hr : row.length = k := hrows row (by simp)
      have hrest := ih (fun r hmem => hrows r (by simp [hmem]))
      simp [hr, hrest, Nat.succ_mul, Nat.add_comm]

theorem find?_findIdx?_get? (p : Field → Bool) (l : List Field) (f : Field)
    (h : l.find? p = some f) : ∃ i, l.findIdx? p = some i ∧ l.get? i = some f := by
  induction l with
  | nil => simp [List.find?] at h
  | cons g rest ih =>
      by_cases hp : p g
      · rw [List.find?_cons_of_pos _ hp] at h
        exact ⟨0, by simp [List.findIdx?_cons, hp], by simpa using h⟩
      · rw [List.find?_cons_of_neg _ hp] at h
        obtain ⟨i, hidx, hget⟩ := ih h
        exact ⟨i + 1, by simp [List.findIdx?_cons, hp, hidx], by simpa using hget⟩

theorem field_by_name_schemaField (arrow_schema : Schema) (name : String) (f : Field)
    (h : field_by_name arrow_schema name = some f) :
    0 ≤ get_field_index arrow_schema name ∧
      schemaField arrow_schema (get_field_index arrow_schema name) = some f := by
  obtain ⟨i, hidx, hget⟩ := find?_findIdx?_get? _ _ _ h
  unfold get_field_index
  rw [hidx]
  refine ⟨by positivity, ?_⟩
  unfold schemaField
  simpa [Int.toNat_natCast] using hget

theorem supported_toTfDtype (t : ArrowType) (h : _IsSupportedArrowValueType t = true) :
    ∃ d, _ArrowTypeToTfDtype t = some d := by
  cases t <;> simp_all [_IsSupportedArrowValueType, _ArrowTypeToTfDtype,
    ArrowType.isInteger, ArrowType.isFloating, ArrowType.isBinary]

theorem shapeCompatible_map_some (dims : List Nat) :
    shapeCompatible (dims.map some) dims = true := by
  induction dims with
  | nil => rfl
  | cons d rest ih => simp [shapeCompatible, dimCompatible, ih]

theorem shapeCompatible_batch (b : Nat) (dims : List Nat) :
    shapeCompatible (none :: dims.map some) (b :: dims) = true := by
  simp [shapeCompatible, dimCompatible, shapeCompatible_map_some]

theorem _ListArrayToTensor_ok (h : DenseHandlerData) (list_array : ListColumn)
    (t : DenseTensorValue) (hok : _ListArrayToTensor h list_array = .ok t) :
    t = { shape := list_array.length :: h.unbatched_shape, dtype := h.dtype,
          values := listArrayFlatten list_array } := by
  simp only [_ListArrayToTensor] at hok
  split at hok
  · exact absurd hok (by simp)
  · simpa using hok.symm

theorem getTensor_type_spec_compatible (h : TypeHandler) (record_batch : RecordBatch)
    (v : TensorValue) (hok : h.GetTensor record_batch = .ok v) :
    h.type_spec.isCompatibleWith v = true := by
  cases h with
  | denseTensor hd =>
      simp only [TypeHandler.GetTensor] at hok
      cases hcol : record_batch.columns.get? hd.column_index with
      | none =>
          simp only [hcol] at hok
          exact absurd hok (by simp)
      | some column =>
          simp only [hcol] at hok
          cases ht : _ListArrayToTensor hd column with
          | error e => simp [ht] at hok
          | ok t =>
              simp only [ht] at hok
              have hv : v = .dense t := by simpa using hok.symm
              have := _ListArrayToTensor_ok hd column t ht
              subst hv this
              simp [TypeHandler.type_spec, TypeSpec.isCompatibleWith, shapeCompatible_batch]
  | defaultFillingDenseTensor hd default_fill =>
      simp only [TypeHandler.GetTensor] at hok
      cases hcol : record_batch.columns.get? hd.column_index with
      | none =>
          simp only [hcol] at hok
          exact absurd hok (by simp)
      | some column =>
          simp only [hcol] at hok
          cases ht : _ListArrayToTensor hd (FillNullLists column default_fill) with
          | error e => simp [ht] at hok
          | ok t =>
              simp only [ht] at hok
              have hv : v = .dense t := by simpa using hok.symm
              have := _ListArrayToTensor_ok hd _ t ht
              subst hv this
              simp [TypeHandler.type_spec, TypeSpec.isCompatibleWith, shapeCompatible_batch]
  | varlenSparseTensor column_index dtype =>
      simp only [TypeHandler.GetTensor] at hok
      cases hcol : record_batch.columns.get? column_index with
      | none => rw [hcol] at hok; exact absurd hok (by simp)
      | some column =>
          rw [hcol] at hok
          have hv : v = TensorValue.sparse
              { indices := (CooFromListArray column).1,
                values := listArrayFlatten column,
                dense_shape := (CooFromListArray column).2, dtype := dtype } := by
            simpa using hok.symm
          subst hv
          simp [TypeHandler.type_spec, TypeSpec.isCompatibleWith, shapeCompatible, dimCompatible]

theorem runTypeHandlers_lookup (record_batch : RecordBatch)
    (handlers : List (String × TypeHandler)) (result : List (String × TensorValue))
    (tensor_name : String) (v : TensorValue)
    (hrun : runTypeHandlers record_batch handlers = .ok result)
    (hv : result.lookup tensor_name = some v) :
    ∃ h : TypeHandler, handlers.lookup tensor_name = some h ∧
      h.GetTensor record_batch = .ok v := by
  induction handlers generalizing result with
  | nil =>
      unfold runTypeHandlers at hrun
      have : result = [] := by simpa using hrun.symm
      subst this
      simp [List.lookup] at hv
  | cons nh rest ih =>
      obtain ⟨n, h⟩ := nh
      unfold runTypeHandlers at hrun
      cases hg : h.GetTensor record_batch with
      | error e => rw [hg] at hrun; exact absurd hrun (by simp)
      | ok v0 =>
          rw [hg] at hrun
          cases hrest : runTypeHandlers record_batch rest with
          | error e =>
              rw [hrest] at hrun
              exact absurd hrun (by simp [Bind.bind, Except.bind])
          | ok rest_result =>
              rw [hrest] at hrun
              have : result = (n, v0) :: rest_result := by
                simpa [Bind.bind, Except.bind] using hrun.symm
              subst this
              by_cases hn : tensor_name == n
              · simp only [List.lookup, hn] at hv
                have hv0 : v0 = v := by simpa using hv
                subst hv0
                exact ⟨h, by simp [List.lookup, hn], hg⟩
              · simp only [List.lookup, hn] at hv
                obtain ⟨h2, hl2, hg2⟩ := ih rest_result hrest hv
                exact ⟨h2, by simp [List.lookup, hn, hl2], hg2⟩

theorem lookup_map_snd {β γ : Type} (l : List (String × β)) (g : β → γ) (x : String) :
    (l.map (fun nh => (nh.1, g nh.2))).lookup x = (l.lookup x).map g := by
  induction l with
  | nil => rfl
  | cons nh rest ih =>
      by_cases hx : x == nh.1 <;> simp [List.lookup, hx, ih]

theorem runTypeHandlers_error_wrapped (record_batch : RecordBatch)
    (handlers : List (String × TypeHandler)) (e : AdapterError)
    (hrun : runTypeHandlers record_batch handlers = .error e) :
    ∃ tensor_name cause, e = .errorHandlingTensor tensor_name cause := by
  induction handlers generalizing e with
  | nil => exact absurd hrun (by simp [runTypeHandlers])
  | cons nh rest ih =>
      obtain ⟨n, h⟩ := nh
      unfold runTypeHandlers at hrun
      cases hg : h.GetTensor record_batch with
      | error c =>
          rw [hg] at hrun
          exact ⟨n, c, by simpa using hrun.symm⟩
      | ok v0 =>
          rw [hg] at hrun
          cases hrest : runTypeHandlers record_batch rest with
          | error e2 =>
              rw [hrest] at hrun
              have : e2 = e := by simpa [Bind.bind, Except.bind] using hrun
              exact this ▸ ih e2 hrest
          | ok rest_result =>
              rw [hrest] at hrun
              exact absurd hrun (by simp [Bind.bind, Except.bind])

theorem mkBaseDense_ok (arrow_schema : Schema) (tr : TensorRepresentation)
    (h : DenseHandlerData) (hmk : mkBaseDenseTensorHandler arrow_schema tr = .ok h) :
    h.unbatched_shape = tr.dense_tensor.dims ∧
    h.unbatched_flat_len = tr.dense_tensor.dims.prod ∧
    h.column_index = (get_field_index arrow_schema tr.dense_tensor.column_name).toNat := by
  simp only [mkBaseDenseTensorHandler] at hmk
  cases hf : schemaField arrow_schema
      (get_field_index arrow_schema tr.dense_tensor.column_name) with
  | none =>
      simp only [hf] at hmk
      exact absurd hmk (by simp)
  | some f =>
      simp only [hf] at hmk
      cases hd : _ArrowTypeToTfDtype (_GetNestDepthAndValueType f).2 with
      | none =>
          simp only [hd] at hmk
          exact absurd hmk (by simp)
      | some dtype =>
          simp only [hd] at hmk
          have hh := Except.ok.inj hmk
          subst hh
          exact ⟨rfl, rfl, rfl⟩

theorem mkDenseTensorHandler_ok (arrow_schema : Schema) (tr : TensorRepresentation)
    (h : DenseHandlerData)
    (hmk : mkDenseTensorHandler arrow_schema tr = .ok (.denseTensor h)) :
    mkBaseDenseTensorHandler arrow_schema tr = .ok h := by
  simp only [mkDenseTensorHandler, Bind.bind, Except.bind] at hmk
  cases hb : mkBaseDenseTensorHandler arrow_schema tr with
  | error e => rw [hb] at hmk; exact absurd hmk (by simp)
  | ok base =>
      rw [hb] at hmk
      have hh : base = h := by simpa using hmk
      subst hh
      rfl

theorem cooFrom_length (r : Nat) (lens : List Nat) :
    (cooFrom r lens).length = lens.sum := by
  induction lens generalizing r with
  | nil => rfl
  | cons len rest ih => simp [cooFrom, ih]

/-- The claim's characterization of the sparse conversion: for each row in
order, pair each in-row position with its scalar, tagging both with the row
number; rows are listed in order, positions within a row in order. -/
def cooPairsFrom (r : Nat) : List (List Value) → List ((Nat × Nat) × Value)
  | [] => []
  | row :: rest => (row.enum.map fun pv => ((r, pv.1), pv.2)) ++ cooPairsFrom (r + 1) rest

theorem cooFrom_zip_flatten (rows : List (List Value)) (r : Nat) :
    (cooFrom r (rows.map List.length)).zip rows.flatten = cooPairsFrom r rows := by
  induction rows generalizing r with
  | nil => rfl
  | cons row rest ih =>
      simp only [List.map_cons, cooFrom, List.flatten_cons, cooPairsFrom]
      rw [List.zip_append (by simp)]
      congr 1
      · rw [List.enum_eq_zip_range, List.zip_map_left]
        refine List.map_congr_left fun x hx => ?_
        cases x
        rfl
      · exact ih (r + 1)

theorem map_rowLength_eq (column : ListColumn) :
    column.map rowLength = (column.map (fun row => row.getD [])).map List.length := by
  simp [List.map_map, rowLength, Function.comp]

/-! Claim theorems -/

/-- C2: for a depth-1 list column with no null rows, every row-list of length
exactly k, and a plain dense handler constructed with dims = [k], conversion
returns a dense value of shape [batch_size, k] whose row-major flattened
values are the concatenation of the input row-lists in row order. -/
theorem c2_dense_fixed_length_roundtrip (arrow_schema : Schema)
    (tr : TensorRepresentation) (h : DenseHandlerData) (k : Nat)
    (rows : List (List Value)) (record_batch : RecordBatch)
    (hmk : mkDenseTensorHandler arrow_schema tr = .ok (.denseTensor h))
    (hdims : tr.dense_tensor.dims = [k])
    (hcol : record_batch.columns.get? h.column_index = some (rows.map some))
    (hrows : ∀ row ∈ rows, row.length = k) :
    TypeHandler.GetTensor (.denseTensor h) record_batch =
      .ok (.dense { shape := [rows.length, k], dtype := h.dtype,
                    values := rows.flatten }) := by
  obtain ⟨hshape, hflat, _⟩ := mkBaseDense_ok _ _ _ (mkDenseTensorHandler_ok _ _ _ hmk)
  rw [hdims] at hshape hflat
  simp only [List.prod_cons, List.prod_nil, Nat.mul_one] at hflat
  have hfl : listArrayFlatten (rows.map some) = rows.flatten := listArrayFlatten_map_some rows
  have hlen : (listArrayFlatten (rows.map some)).length =
      (rows.map some).length * h.unbatched_flat_len := by
    rw [hfl, flatten_length_const rows k hrows, List.length_map, hflat]
  simp only [TypeHandler.GetTensor, hcol, _ListArrayToTensor]
  rw [if_neg (fun hne => hne hlen)]
  simp [hfl, hshape]

/-- C2 witness: the spec example, column [[1,2,3,4],[5,6,7,8]] with dims=[4]
giving shape [2,4] and values [1,2,3,4,5,6,7,8]. -/
theorem c2_dense_fixed_length_roundtrip_witness :
    TypeHandler.GetTensor
        (.denseTensor { column_index := 0, dtype := .tf_int64, unbatched_shape := [4],
                        unbatched_flat_len := 4 })
        { schema := [{ name := "input", type := .list .int64 }],
          columns := [[some [.intV 1, .intV 2, .intV 3, .intV 4],
                       some [.intV 5, .intV 6, .intV 7, .intV 8]]] } =
      .ok (.dense { shape := [2, 4], dtype := .tf_int64,
                    values := [.intV 1, .intV 2, .intV 3, .intV 4,
                               .intV 5, .intV 6, .intV 7, .intV 8] }) :=
  c2_dense_fixed_length_roundtrip
    [{ name := "input", type := .list .int64 }]
    (.denseKind { column_name := "input", dims := [4], default_value := none })
    { column_index := 0, dtype := .tf_int64, unbatched_shape := [4],
      unbatched_flat_len := 4 }
    4
    [[.intV 1, .intV 2, .intV 3, .intV 4], [.intV 5, .intV 6, .intV 7, .intV 8]]
    { schema := [{ name := "input", type := .list .int64 }],
      columns := [[some [.intV 1, .intV 2, .intV 3, .intV 4],
                   some [.intV 5, .intV 6, .intV 7, .intV 8]]] }
    (by rfl) (by rfl) (by rfl) (by decide)

/-- C3: the plain reshape fails, reporting expected and actual counts, exactly
when the flattened non-null element count differs from
batch_size * unbatched_flat_len (flattening drops null row-lists, so an
uncompensated null row surfaces here). -/
theorem c3_shape_mismatch_iff (h : DenseHandlerData) (list_array : ListColumn) :
    ((∃ e, _ListArrayToTensor h list_array = .error e) ↔
      (listArrayFlatten list_array).length ≠ list_array.length * h.unbatched_flat_len) ∧
    (_ListArrayToTensor h list_array =
        .error (.sizeMismatch (list_array.length * h.unbatched_flat_len)
          (listArrayFlatten list_array).length) ↔
      (listArrayFlatten list_array).length ≠ list_array.length * h.unbatched_flat_len) := by
  by_cases hc :
      (listArrayFlatten list_array).length = list_array.length * h.unbatched_flat_len
  · constructor <;> simp [_ListArrayToTensor, hc]
  · constructor <;> simp [_ListArrayToTensor, hc]

/-- C10: on a zero-row column both dense handlers succeed with shape
0 :: dims (the check 0 = 0 * prod(dims) passes vacuously). -/
theorem c10_empty_batch_succeeds (h : DenseHandlerData) (default_fill : List Value)
    (record_batch : RecordBatch)
    (hcol : record_batch.columns.get? h.column_index = some ([] : ListColumn)) :
    TypeHandler.GetTensor (.denseTensor h) record_batch =
      .ok (.dense { shape := 0 :: h.unbatched_shape, dtype := h.dtype, values := [] }) ∧
    TypeHandler.GetTensor (.defaultFillingDenseTensor h default_fill) record_batch =
      .ok (.dense { shape := 0 :: h.unbatched_shape, dtype := h.dtype, values := [] }) := by
  constructor <;>
    · simp only [TypeHandler.GetTensor, hcol]
      simp [FillNullLists, _ListArrayToTensor, listArrayFlatten]

/-- C10 witness: a zero-row int64 column with dims [2, 2] converts to an
empty dense value of shape [0, 2, 2] under both dense handlers. -/
theorem c10_empty_batch_succeeds_witness :
    TypeHandler.GetTensor
        (.denseTensor { column_index := 0, dtype := .tf_int64, unbatched_shape := [2, 2],
                        unbatched_flat_len := 4 })
        { schema := [{ name := "input", type := .list .int64 }], columns := [[]] } =
      .ok (.dense { shape := [0, 2, 2], dtype := .tf_int64, values := [] }) ∧
    TypeHandler.GetTensor
        (.defaultFillingDenseTensor
          { column_index := 0, dtype := .tf_int64, unbatched_shape := [2, 2],
            unbatched_flat_len := 4 } (List.replicate 4 (.intV 2)))
        { schema := [{ name := "input", type := .list .int64 }], columns := [[]] } =
      .ok (.dense { shape := [0, 2, 2], dtype := .tf_int64, values := [] }) :=
  c10_empty_batch_succeeds
    { column_index := 0, dtype := .tf_int64, unbatched_shape := [2, 2],
      unbatched_flat_len := 4 }
    (List.replicate 4 (.intV 2))
    { schema := [{ name := "input", type := .list .int64 }], columns := [[]] }
    (by rfl)

/-- C6: the varlen sparse handler returns (coordinates, values, dense_shape)
where, nulls treated as empty lists, coordinates are exactly the (row,
position) pairs ordered by row then position, values are the corresponding
scalars in the same order, dense_shape is (batch size, maximum row length, 0
for an empty batch), and the coordinate count equals the sum of per-row
lengths. -/
theorem c6_varlen_sparse_conversion (column_index : Nat) (dtype : TfDType)
    (record_batch : RecordBatch) (column : ListColumn)
    (hcol : record_batch.columns.get? column_index = some column) :
    TypeHandler.GetTensor (.varlenSparseTensor column_index dtype) record_batch =
      .ok (.sparse { indices := cooFrom 0 (column.map rowLength),
                     values := listArrayFlatten column,
                     dense_shape := (column.length, (column.map rowLength).foldr max 0),
                     dtype := dtype }) ∧
    (cooFrom 0 (column.map rowLength)).zip (listArrayFlatten column) =
      cooPairsFrom 0 (column.map (fun row => row.getD [])) ∧
    (cooFrom 0 (column.map rowLength)).length = (column.map rowLength).sum := by
  refine ⟨?_, ?_, cooFrom_length 0 _⟩
  · simp only [TypeHandler.GetTensor, hcol, CooFromListArray]
  · rw [map_rowLength_eq, listArrayFlatten_eq_flatten_getD]
    exact cooFrom_zip_flatten _ 0

/-- C6 witness: the spec example, column [[1,2], None, [3], [], [5]] giving
coordinates [(0,0),(0,1),(2,0),(4,0)], values [1,2,3,5] and dense shape
(5,2). -/
theorem c6_varlen_sparse_conversion_witness :
    TypeHandler.GetTensor (.varlenSparseTensor 0 .tf_int64)
        { schema := [{ name := "input", type := .list .int64 }],
          columns := [[some [.intV 1, .intV 2], none, some [.intV 3], some [],
                       some [.intV 5]]] } =
      .ok (.sparse { indices := [(0, 0), (0, 1), (2, 0), (4, 0)],
                     values := [.intV 1, .intV 2, .intV 3, .intV 5],
                     dense_shape := (5, 2), dtype := .tf_int64 }) :=
  (c6_varlen_sparse_conversion 0 .tf_int64
    { schema := [{ name := "input", type := .list .int64 }],
      columns := [[some [.intV 1, .intV 2], none, some [.intV 3], some [],
                   some [.intV 5]]] }
    [some [.intV 1, .intV 2], none, some [.intV 3], some [], some [.intV 5]]
    (by rfl)).1

/-- C1: for an adapter built from a config, whenever conversion of a batch
succeeds, every converted output value is compatible with the static type
spec computed at construction (dense: rank 1 + len(dims), trailing dims and
dtype; sparse: rank 2 and the dtype fixed at construction). -/
theorem c1_type_specs_compatible (config : TensorAdapterConfig) (a : TensorAdapter)
    (record_batch : RecordBatch) (result : List (String × TensorValue))
    (tensor_name : String) (v : TensorValue)
    (hbuild : TensorAdapter.build config = .ok a)
    (hconv : a.ToBatchTensors record_batch = .ok result)
    (hv : result.lookup tensor_name = some v) :
    ∃ spec : TypeSpec, (a.TypeSpecs).lookup tensor_name = some spec ∧
      spec.isCompatibleWith v = true := by
  unfold TensorAdapter.ToBatchTensors at hconv
  by_cases hs : record_batch.schema = a.arrow_schema
  · rw [if_pos hs] at hconv
    obtain ⟨h, hl, hg⟩ :=
      runTypeHandlers_lookup record_batch a.type_handlers result tensor_name v hconv hv
    refine ⟨h.type_spec, ?_, getTensor_type_spec_compatible h record_batch v hg⟩
    unfold TensorAdapter.TypeSpecs
    rw [lookup_map_snd a.type_handlers TypeHandler.type_spec tensor_name, hl]
    rfl
  · rw [if_neg hs] at hconv
    exact absurd hconv (by simp)

/-- C1 witness: a one-output dense adapter over an int64 list column, applied
to a two-row batch. -/
theorem c1_type_specs_compatible_witness :
    TensorAdapter.build
        { arrow_schema := [{ name := "input", type := .list .int64 }],
          tensor_representations :=
            [("output", .denseKind { column_name := "input", dims := [4],
                                     default_value := none })] } =
      .ok { arrow_schema := [{ name := "input", type := .list .int64 }],
            type_handlers :=
              [("output", .denseTensor { column_index := 0, dtype := .tf_int64,
                                         unbatched_shape := [4],
                                         unbatched_flat_len := 4 })] } ∧
    ∃ spec : TypeSpec,
      (TensorAdapter.TypeSpecs
          { arrow_schema := [{ name := "input", type := .list .int64 }],
            type_handlers :=
              [("output", .denseTensor { column_index := 0, dtype := .tf_int64,
                                         unbatched_shape := [4],
                                         unbatched_flat_len := 4 })] }).lookup "output" =
        some spec ∧
      spec.isCompatibleWith
        (.dense { shape := [2, 4], dtype := .tf_int64,
                  values := [.intV 1, .intV 2, .intV 3, .intV 4,
                             .intV 5, .intV 6, .intV 7, .intV 8] }) = true :=
  ⟨by rfl,
   c1_type_specs_compatible
    { arrow_schema := [{ name := "input", type := .list .int64 }],
      tensor_representations :=
        [("output", .denseKind { column_name := "input", dims := [4],
                                 default_value := none })] }
    { arrow_schema := [{ name := "input", type := .list .int64 }],
      type_handlers :=
        [("output", .denseTensor { column_index := 0, dtype := .tf_int64,
                                   unbatched_shape := [4], unbatched_flat_len := 4 })] }
    { schema := [{ name := "input", type := .list .int64 }],
      columns := [[some [.intV 1, .intV 2, .intV 3, .intV 4],
                   some [.intV 5, .intV 6, .intV 7, .intV 8]]] }
    [("output", .dense { shape := [2, 4], dtype := .tf_int64,
                         values := [.intV 1, .intV 2, .intV 3, .intV 4,
                                    .intV 5, .intV 6, .intV 7, .intV 8] })]
    "output"
    (.dense { shape := [2, 4], dtype := .tf_int64,
              values := [.intV 1, .intV 2, .intV 3, .intV 4,
                         .intV 5, .intV 6, .intV 7, .intV 8] })
    (by rfl) (by rfl) (by rfl)⟩

/-- C7: ToBatchTensors fails with the schema-mismatch error exactly when the
batch's schema differs structurally from the adapter's bound schema, and when
they are structurally equal it proceeds to run the handlers. -/
theorem c7_schema_mismatch_check (a : TensorAdapter) (record_batch : RecordBatch) :
    (TensorAdapter.ToBatchTensors a record_batch = .error .expectedSameSchema ↔
      record_batch.schema ≠ a.arrow_schema) ∧
    (record_batch.schema = a.arrow_schema →
      TensorAdapter.ToBatchTensors a record_batch =
        runTypeHandlers record_batch a.type_handlers) := by
  unfold TensorAdapter.ToBatchTensors
  by_cases hs : record_batch.schema = a.arrow_schema
  · rw [if_pos hs]
    refine ⟨⟨fun he => ?_, fun hne => absurd hs hne⟩, fun _ => rfl⟩
    obtain ⟨n, c, hc⟩ := runTypeHandlers_error_wrapped record_batch a.type_handlers _ he
    exact absurd hc (by simp)
  · rw [if_neg hs]
    exact ⟨⟨fun _ => hs, fun _ => rfl⟩, fun he => absurd he hs⟩

/-- C7 witness: a batch whose single column is declared int32 instead of the
adapter's int64 is rejected with the schema-mismatch error; the same batch
with the matching schema is dispatched to the handlers. -/
theorem c7_schema_mismatch_check_witness :
    TensorAdapter.ToBatchTensors
        { arrow_schema := [{ name := "input", type := .list .int64 }],
          type_handlers :=
            [("output", .denseTensor { column_index := 0, dtype := .tf_int64,
                                       unbatched_shape := [4],
                                       unbatched_flat_len := 4 })] }
        { schema := [{ name := "input", type := .list .int32 }], columns := [[]] } =
      .error .expectedSameSchema ∧
    TensorAdapter.ToBatchTensors
        { arrow_schema := [{ name := "input", type := .list .int64 }],
          type_handlers :=
            [("output", .denseTensor { column_index := 0, dtype := .tf_int64,
                                       unbatched_shape := [4],
                                       unbatched_flat_len := 4 })] }
        { schema := [{ name := "input", type := .list .int64 }], columns := [[]] } =
      runTypeHandlers
        { schema := [{ name := "input", type := .list .int64 }], columns := [[]] }
        [("output", .denseTensor { column_index := 0, dtype := .tf_int64,
                                   unbatched_shape := [4], unbatched_flat_len := 4 })] :=
  ⟨(c7_schema_mismatch_check
      { arrow_schema := [{ name := "input", type := .list .int64 }],
        type_handlers :=
          [("output", .denseTensor { column_index := 0, dtype := .tf_int64,
                                     unbatched_shape := [4],
                                     unbatched_flat_len := 4 })] }
      { schema := [{ name := "input", type := .list .int32 }],
        columns := [[]] }).1.mpr (by decide),
   (c7_schema_mismatch_check
      { arrow_schema := [{ name := "input", type := .list .int64 }],
        type_handlers :=
          [("output", .denseTensor { column_index := 0, dtype := .tf_int64,
                                     unbatched_shape := [4],
                                     unbatched_flat_len := 4 })] }
      { schema := [{ name := "input", type := .list .int64 }],
        columns := [[]] }).2 (by rfl)⟩

theorem build_singleton (arrow_schema : Schema) (tensor_name : String)
    (rep : TensorRepresentation) :
    TensorAdapter.build
        { arrow_schema := arrow_schema,
          tensor_representations := [(tensor_name, rep)] } =
      match _TYPE_HANDLER_MAP rep with
      | none => .error (.unableToHandle tensor_name rep)
      | some entries =>
          match findCompatibleHandler arrow_schema rep entries with
          | .error e => .error e
          | .ok none => .error (.noCompatibleHandler tensor_name rep arrow_schema)
          | .ok (some h) =>
              .ok { arrow_schema := arrow_schema,
                    type_handlers := [(tensor_name, h)] } := by
  cases hmap : _TYPE_HANDLER_MAP rep with
  | none => simp [TensorAdapter.build, _BuildTypeHandlers, hmap, Bind.bind, Except.bind]
  | some entries =>
      cases hfind : findCompatibleHandler arrow_schema rep entries with
      | error e =>
          simp [TensorAdapter.build, _BuildTypeHandlers, hmap, hfind, Bind.bind, Except.bind]
      | ok o =>
          cases o <;>
            simp [TensorAdapter.build, _BuildTypeHandlers, hmap, hfind, Bind.bind, Except.bind]

theorem mkDenseTensorHandler_shape (arrow_schema : Schema) (tr : TensorRepresentation)
    (h : TypeHandler) (hmk : mkDenseTensorHandler arrow_schema tr = .ok h) :
    ∃ base, h = .denseTensor base := by
  simp only [mkDenseTensorHandler, Bind.bind, Except.bind] at hmk
  cases hb : mkBaseDenseTensorHandler arrow_schema tr with
  | error e => rw [hb] at hmk; exact absurd hmk (by simp)
  | ok base =>
      rw [hb] at hmk
      exact ⟨base, by simpa using hmk.symm⟩

theorem mkDefaultFilling_shape (arrow_schema : Schema) (tr : TensorRepresentation)
    (h : TypeHandler)
    (hmk : mkDefaultFillingDenseTensorHandler arrow_schema tr = .ok h) :
    ∃ base fill, h = .defaultFillingDenseTensor base fill := by
  simp only [mkDefaultFillingDenseTensorHandler, Bind.bind, Except.bind] at hmk
  cases hb : mkBaseDenseTensorHandler arrow_schema tr with
  | error e => rw [hb] at hmk; exact absurd hmk (by simp)
  | ok base =>
      rw [hb] at hmk
      cases hf : schemaField arrow_schema
          (get_field_index arrow_schema tr.dense_tensor.column_name) with
      | none => simp only [hf] at hmk; exact absurd hmk (by simp)
      | some f =>
          simp only [hf] at hmk
          cases hfill : _GetDefaultFill base.unbatched_shape (_GetNestDepthAndValueType f).2
              (tr.dense_tensor.default_value.getD .unset) with
          | error e => rw [hfill] at hmk; exact absurd hmk (by simp)
          | ok fill =>
              rw [hfill] at hmk
              exact ⟨base, fill, by simpa using hmk.symm⟩

/-- C4: the default-filling dense handler's fill buffer, computed at
construction, is exactly prod(dims) copies of the validated default value,
and its conversion replaces null rows with that buffer and then behaves
exactly as the plain reshape does (including the same size check). -/
theorem c4_default_filling_conversion (arrow_schema : Schema)
    (tr : TensorRepresentation) (h : DenseHandlerData) (default_fill : List Value)
    (hmk : mkDefaultFillingDenseTensorHandler arrow_schema tr =
      .ok (.defaultFillingDenseTensor h default_fill)) :
    (∃ f v, schemaField arrow_schema
        (get_field_index arrow_schema tr.dense_tensor.column_name) = some f ∧
      _GetAllowedDefaultValue (_GetNestDepthAndValueType f).2
          (tr.dense_tensor.default_value.getD .unset) = .ok v ∧
      default_fill = List.replicate h.unbatched_flat_len v) ∧
    (∀ (record_batch : RecordBatch) (column : ListColumn),
      record_batch.columns.get? h.column_index = some column →
      TypeHandler.GetTensor (.defaultFillingDenseTensor h default_fill) record_batch =
        (_ListArrayToTensor h (FillNullLists column default_fill)).map .dense) := by
  constructor
  · simp only [mkDefaultFillingDenseTensorHandler, Bind.bind, Except.bind] at hmk
    cases hb : mkBaseDenseTensorHandler arrow_schema tr with
    | error e => rw [hb] at hmk; exact absurd hmk (by simp)
    | ok base =>
        rw [hb] at hmk
        cases hf : schemaField arrow_schema
            (get_field_index arrow_schema tr.dense_tensor.column_name) with
        | none => simp only [hf] at hmk; exact absurd hmk (by simp)
        | some f =>
            simp only [hf, _GetDefaultFill, Bind.bind, Except.bind] at hmk
            cases hv : _GetAllowedDefaultValue (_GetNestDepthAndValueType f).2
                (tr.dense_tensor.default_value.getD .unset) with
            | error e => rw [hv] at hmk; exact absurd hmk (by simp)
            | ok v =>
                rw [hv] at hmk
                obtain ⟨hbh, hfill⟩ :
                    base = h ∧ List.replicate base.unbatched_shape.prod v = default_fill := by
                  simpa using hmk
                obtain ⟨hsh, hlen, _⟩ := mkBaseDense_ok arrow_schema tr base hb
                subst hbh
                refine ⟨f, v, rfl, hv, ?_⟩
                rw [← hfill, hsh, hlen]
  · intro record_batch column hcol
    simp only [TypeHandler.GetTensor, hcol]
    cases _ListArrayToTensor h (FillNullLists column default_fill) <;> rfl

/-- C4 witness: the spec example, column [None, [1,2,3,4], None] with
dims=[2,2] and integer default 2 giving shape [3,2,2], rows 0 and 2 filled
with 2. -/
theorem c4_default_filling_conversion_witness :
    mkDefaultFillingDenseTensorHandler
        [{ name := "input", type := .list .int64 }]
        (.denseKind { column_name := "input", dims := [2, 2],
                      default_value := some (.int_value 2) }) =
      .ok (.defaultFillingDenseTensor
        { column_index := 0, dtype := .tf_int64, unbatched_shape := [2, 2],
          unbatched_flat_len := 4 }
        (List.replicate 4 (.intV 2))) ∧
    (∃ f v, schemaField [{ name := "input", type := .list .int64 }]
        (get_field_index [{ name := "input", type := .list .int64 }]
          (TensorRepresentation.dense_tensor
            (.denseKind { column_name := "input", dims := [2, 2],
                          default_value := some (.int_value 2) })).column_name) = some f ∧
      _GetAllowedDefaultValue (_GetNestDepthAndValueType f).2
          ((TensorRepresentation.dense_tensor
            (.denseKind { column_name := "input", dims := [2, 2],
                          default_value := some (.int_value 2) })).default_value.getD
            .unset) = .ok v ∧
      List.replicate 4 (Value.intV 2) = List.replicate 4 v) ∧
    TypeHandler.GetTensor
        (.defaultFillingDenseTensor
          { column_index := 0, dtype := .tf_int64, unbatched_shape := [2, 2],
            unbatched_flat_len := 4 }
          (List.replicate 4 (.intV 2)))
        { schema := [{ name := "input", type := .list .int64 }],
          columns := [[none, some [.intV 1, .intV 2, .intV 3, .intV 4], none]] } =
      .ok (.dense { shape := [3, 2, 2], dtype := .tf_int64,
                    values := [.intV 2, .intV 2, .intV 2, .intV 2,
                               .intV 1, .intV 2, .intV 3, .intV 4,
                               .intV 2, .intV 2, .intV 2, .intV 2] }) :=
  ⟨by rfl,
   (c4_default_filling_conversion
      [{ name := "input", type := .list .int64 }]
      (.denseKind { column_name := "input", dims := [2, 2],
                    default_value := some (.int_value 2) })
      { column_index := 0, dtype := .tf_int64, unbatched_shape := [2, 2],
        unbatched_flat_len := 4 }
      (List.replicate 4 (.intV 2)) (by rfl)).1,
   by rfl⟩

/-- C8: a dense or sparse representation naming a column absent from the
schema makes adapter construction fail (resolving the absent name while
checking the candidate handlers raises, aborting construction). -/
theorem c8_unknown_column (arrow_schema : Schema) (tensor_name : String)
    (rep : DenseTensorRep) (sparse_column : String)
    (hdense : field_by_name arrow_schema rep.column_name = none)
    (hsparse : field_by_name arrow_schema sparse_column = none) :
    TensorAdapter.build
        { arrow_schema := arrow_schema,
          tensor_representations := [(tensor_name, .denseKind rep)] } =
      .error .attributeError ∧
    TensorAdapter.build
        { arrow_schema := arrow_schema,
          tensor_representations := [(tensor_name, .varlenSparseKind sparse_column)] } =
      .error .attributeError := by
  constructor
  · rw [build_singleton]
    simp [_TYPE_HANDLER_MAP, findCompatibleHandler, denseTensorHandlerEntry,
      DenseTensorHandlerCanHandle, BaseCanHandle, TensorRepresentation.dense_tensor,
      hdense, Bind.bind, Except.bind]
  · rw [build_singleton]
    simp [_TYPE_HANDLER_MAP, findCompatibleHandler, varLenSparseHandlerEntry,
      VarLenSparseCanHandle, TensorRepresentation.varlen_sparse_column_name,
      hsparse, Bind.bind, Except.bind]

/-- C8 witness: in a one-column schema, both a dense and a sparse
representation referencing the name "absent" fail adapter construction. -/
theorem c8_unknown_column_witness :
    TensorAdapter.build
        { arrow_schema := [{ name := "input", type := .list .int64 }],
          tensor_representations :=
            [("tensor", .denseKind { column_name := "absent", dims := [],
                                     default_value := none })] } =
      .error .attributeError ∧
    TensorAdapter.build
        { arrow_schema := [{ name := "input", type := .list .int64 }],
          tensor_representations := [("tensor", .varlenSparseKind "absent")] } =
      .error .attributeError :=
  c8_unknown_column [{ name := "input", type := .list .int64 }] "tensor"
    { column_name := "absent", dims := [], default_value := none } "absent"
    (by rfl) (by rfl)

/-- C5: a configured default value is accepted at construction iff its kind
matches the column element type family — an integer kind only on an integer
column and only within the concrete width's range, a floating default only on
a floating column, a byte-string default only on a binary column — and any
rejected default (mismatched kind, unset kind, out-of-range integer) makes
adapter construction fail with the corresponding validation error. -/
theorem c5_default_value_validation (value_type : ArrowType) (dv : DefaultValue) :
    ((∃ v, _GetAllowedDefaultValue value_type dv = .ok v) ↔
      ((∃ i : Int,
          (dv = .int_value i ∨ ∃ n : Nat, dv = .uint_value n ∧ i = (n : Int)) ∧
          value_type.isInteger = true ∧
          i ≤ iinfoMax value_type ∧ iinfoMin value_type ≤ i) ∨
        (∃ bits : Int, dv = .float_value bits ∧ value_type.isFloating = true) ∨
        (∃ bs : List Nat, dv = .bytes_value bs ∧ value_type.isBinary = true))) ∧
    (∀ (arrow_schema : Schema) (tensor_name : String) (rep : DenseTensorRep)
        (f : Field) (e : AdapterError),
      field_by_name arrow_schema rep.column_name = some f →
      (_GetNestDepthAndValueType f).1 = 1 →
      _IsSupportedArrowValueType (_GetNestDepthAndValueType f).2 = true →
      rep.default_value = some dv →
      (_GetNestDepthAndValueType f).2 = value_type →
      _GetAllowedDefaultValue value_type dv = .error e →
      TensorAdapter.build
          { arrow_schema := arrow_schema,
            tensor_representations := [(tensor_name, .denseKind rep)] } =
        .error e) := by
  constructor
  · cases dv with
    | int_value i =>
        by_cases hint : value_type.isInteger
        · by_cases hrange : i ≤ iinfoMax value_type ∧ iinfoMin value_type ≤ i
          · simp [_GetAllowedDefaultValue, hint, hrange]
          · simp only [_GetAllowedDefaultValue, hint, if_true, if_neg hrange]
            simp [hrange, hint]
        · simp [_GetAllowedDefaultValue, hint]
    | uint_value n =>
        by_cases hint : value_type.isInteger
        · by_cases hrange : (n : Int) ≤ iinfoMax value_type ∧ iinfoMin value_type ≤ (n : Int)
          · constructor
            · intro _
              exact Or.inl ⟨(n : Int), Or.inr ⟨n, rfl, rfl⟩, hint, hrange.1, hrange.2⟩
            · intro _
              exact ⟨.intV (n : Int), by simp [_GetAllowedDefaultValue, hint, hrange]⟩
          · have hval : _GetAllowedDefaultValue value_type (.uint_value n) =
                .error (.integerDefaultOutOfRange (n : Int) value_type) := by
              simp [_GetAllowedDefaultValue, hint, hrange]
            constructor
            · rintro ⟨v, hvv⟩
              rw [hval] at hvv
              exact absurd hvv (by simp)
            · rintro (⟨i, hi, _, hmax, hmin⟩ | ⟨bits, hb, _⟩ | ⟨bs, hb, _⟩)
              · obtain hi2 | ⟨m, hm, hmi⟩ := hi
                · exact absurd hi2 (by simp)
                · obtain hm2 := DefaultValue.uint_value.inj hm
                  subst hm2
                  subst hmi
                  exact absurd ⟨hmax, hmin⟩ hrange
              · exact absurd hb (by simp)
              · exact absurd hb (by simp)
        · simp [_GetAllowedDefaultValue, hint]
    | float_value bits =>
        by_cases hfl : value_type.isFloating
        · simp [_GetAllowedDefaultValue, hfl]
        · simp [_GetAllowedDefaultValue, hfl]
    | bytes_value bs =>
        by_cases hbin : value_type.isBinary
        · simp [_GetAllowedDefaultValue, hbin]
        · simp [_GetAllowedDefaultValue, hbin]
    | unset => simp [_GetAllowedDefaultValue]
  · intro arrow_schema tensor_name rep f e hf hdepth hsupp hdef hvt herr
    obtain ⟨hidx, hfield⟩ := field_by_name_schemaField arrow_schema rep.column_name f hf
    obtain ⟨d, hd⟩ := supported_toTfDtype (_GetNestDepthAndValueType f).2 hsupp
    rw [hvt] at hsupp hd
    rw [build_singleton]
    simp [_TYPE_HANDLER_MAP, findCompatibleHandler, denseTensorHandlerEntry,
      defaultFillingHandlerEntry, DenseTensorHandlerCanHandle, DefaultFillingCanHandle,
      BaseCanHandle, TensorRepresentation.dense_tensor, hf, hdepth, hsupp, hdef,
      mkDefaultFillingDenseTensorHandler, mkBaseDenseTensorHandler, hfield, hd,
      _GetDefaultFill, hvt, herr, Bind.bind, Except.bind]

/-- C5 witness: the unsigned default 0xFFFFFFFFFFFFFFFF on an int64 column is
out of range and fails adapter construction with the out-of-range error. -/
theorem c5_default_value_validation_witness :
    TensorAdapter.build
        { arrow_schema := [{ name := "column", type := .list .int64 }],
          tensor_representations :=
            [("tensor", .denseKind { column_name := "column", dims := [],
                                     default_value :=
                                       some (.uint_value 18446744073709551615) })] } =
      .error (.integerDefaultOutOfRange 18446744073709551615 .int64) :=
  (c5_default_value_validation .int64 (.uint_value 18446744073709551615)).2
    [{ name := "column", type := .list .int64 }] "tensor"
    { column_name := "column", dims := [],
      default_value := some (.uint_value 18446744073709551615) }
    { name := "column", type := .list .int64 }
    (.integerDefaultOutOfRange 18446744073709551615 .int64)
    (by rfl) (by rfl) (by rfl) (by rfl) (by rfl) (by rfl)

/-- C9: handler resolution tries the registered candidates for the
representation kind in list order and instantiates the first accepting one —
for dense, plain before default-filling, distinguished exactly by the absence
or presence of a default value; an unset kind fails naming the output; and a
column of nest depth other than 1 or of unsupported element type makes every
candidate reject, failing with the no-compatible-handler error naming output,
representation and schema, under either kind. -/
theorem c9_handler_resolution (arrow_schema : Schema) (tensor_name : String) :
    (TensorAdapter.build
        { arrow_schema := arrow_schema,
          tensor_representations := [(tensor_name, .unset)] } =
      .error (.unableToHandle tensor_name .unset)) ∧
    (∀ (rep : DenseTensorRep) (f : Field),
      field_by_name arrow_schema rep.column_name = some f →
      ((_GetNestDepthAndValueType f).1 ≠ 1 ∨
        _IsSupportedArrowValueType (_GetNestDepthAndValueType f).2 = false) →
      TensorAdapter.build
          { arrow_schema := arrow_schema,
            tensor_representations := [(tensor_name, .denseKind rep)] } =
        .error (.noCompatibleHandler tensor_name (.denseKind rep) arrow_schema)) ∧
    (∀ (column_name : String) (f : Field),
      field_by_name arrow_schema column_name = some f →
      ((_GetNestDepthAndValueType f).1 ≠ 1 ∨
        _IsSupportedArrowValueType (_GetNestDepthAndValueType f).2 = false) →
      TensorAdapter.build
          { arrow_schema := arrow_schema,
            tensor_representations := [(tensor_name, .varlenSparseKind column_name)] } =
        .error (.noCompatibleHandler tensor_name (.varlenSparseKind column_name)
          arrow_schema)) ∧
    (∀ (rep : DenseTensorRep) (a : TensorAdapter),
      TensorAdapter.build
          { arrow_schema := arrow_schema,
            tensor_representations := [(tensor_name, .denseKind rep)] } = .ok a →
      ∃ hd : DenseHandlerData,
        (rep.default_value = none →
          a.type_handlers = [(tensor_name, .denseTensor hd)]) ∧
        (∀ dv, rep.default_value = some dv →
          ∃ fill, a.type_handlers =
            [(tensor_name, .defaultFillingDenseTensor hd fill)])) := by
  refine ⟨by rfl, ?_, ?_, ?_⟩
  · intro rep f hf hbad
    have hb : (((_GetNestDepthAndValueType f).1 == 1) &&
        _IsSupportedArrowValueType (_GetNestDepthAndValueType f).2) = false := by
      rcases hbad with h1 | h2
      · simp [h1]
      · simp [h2]
    rw [build_singleton]
    simp [_TYPE_HANDLER_MAP, findCompatibleHandler, denseTensorHandlerEntry,
      defaultFillingHandlerEntry, DenseTensorHandlerCanHandle, DefaultFillingCanHandle,
      BaseCanHandle, TensorRepresentation.dense_tensor, hf, hb, Bind.bind, Except.bind]
  · intro column_name f hf hbad
    have hb : (((_GetNestDepthAndValueType f).1 == 1) &&
        _IsSupportedArrowValueType (_GetNestDepthAndValueType f).2) = false := by
      rcases hbad with h1 | h2
      · simp [h1]
      · simp [h2]
    rw [build_singleton]
    simp [_TYPE_HANDLER_MAP, findCompatibleHandler, varLenSparseHandlerEntry,
      VarLenSparseCanHandle, TensorRepresentation.varlen_sparse_column_name, hf, hb,
      Bind.bind, Except.bind]
  · intro rep a hok
    rw [build_singleton] at hok
    simp only [_TYPE_HANDLER_MAP] at hok
    cases hfb : field_by_name arrow_schema rep.column_name with
    | none =>
        have hfind : findCompatibleHandler arrow_schema (.denseKind rep)
            [denseTensorHandlerEntry, defaultFillingHandlerEntry] =
              .error .attributeError := by
          simp [findCompatibleHandler, denseTensorHandlerEntry, DenseTensorHandlerCanHandle,
            BaseCanHandle, TensorRepresentation.dense_tensor, hfb, Bind.bind, Except.bind]
        rw [hfind] at hok
        exact absurd hok (by simp)
    | some f =>
        cases hcan : (((_GetNestDepthAndValueType f).1 == 1) &&
            _IsSupportedArrowValueType (_GetNestDepthAndValueType f).2) with
        | false =>
            have hfind : findCompatibleHandler arrow_schema (.denseKind rep)
                [denseTensorHandlerEntry, defaultFillingHandlerEntry] = .ok none := by
              simp [findCompatibleHandler, denseTensorHandlerEntry,
                defaultFillingHandlerEntry, DenseTensorHandlerCanHandle,
                DefaultFillingCanHandle, BaseCanHandle, TensorRepresentation.dense_tensor,
                hfb, hcan, Bind.bind, Except.bind]
            rw [hfind] at hok
            exact absurd hok (by simp)
        | true =>
            cases hdv : rep.default_value with
            | none =>
                cases hmk : mkDenseTensorHandler arrow_schema (.denseKind rep) with
                | error e =>
                    have hfind : findCompatibleHandler arrow_schema (.denseKind rep)
                        [denseTensorHandlerEntry, defaultFillingHandlerEntry] =
                          .error e := by
                      simp [findCompatibleHandler, denseTensorHandlerEntry,
                        DenseTensorHandlerCanHandle, BaseCanHandle,
                        TensorRepresentation.dense_tensor, hfb, hcan, hdv, hmk,
                        Bind.bind, Except.bind]
                    rw [hfind] at hok
                    exact absurd hok (by simp)
                | ok h =>
                    obtain ⟨base, hbase⟩ := mkDenseTensorHandler_shape _ _ _ hmk
                    subst hbase
                    have hfind : findCompatibleHandler arrow_schema (.denseKind rep)
                        [denseTensorHandlerEntry, defaultFillingHandlerEntry] =
                          .ok (some (.denseTensor base)) := by
                      simp [findCompatibleHandler, denseTensorHandlerEntry,
                        DenseTensorHandlerCanHandle, BaseCanHandle,
                        TensorRepresentation.dense_tensor, hfb, hcan, hdv, hmk,
                        Bind.bind, Except.bind]
                    rw [hfind] at hok
                    have ha : a =
                        { arrow_schema := arrow_schema,
                          type_handlers := [(tensor_name, .denseTensor base)] } := by
                      simpa using hok.symm
                    subst ha
                    exact ⟨base, fun _ => rfl, fun dv hdv2 => absurd hdv2 (by simp)⟩
            | some dv0 =>
                cases hmk : mkDefaultFillingDenseTensorHandler arrow_schema
                    (.denseKind rep) with
                | error e =>
                    have hfind : findCompatibleHandler arrow_schema (.denseKind rep)
                        [denseTensorHandlerEntry, defaultFillingHandlerEntry] =
                          .error e := by
                      simp [findCompatibleHandler, denseTensorHandlerEntry,
                        defaultFillingHandlerEntry, DenseTensorHandlerCanHandle,
                        DefaultFillingCanHandle, BaseCanHandle,
                        TensorRepresentation.dense_tensor, hfb, hcan, hdv, hmk,
                        Bind.bind, Except.bind]
                    rw [hfind] at hok
                    exact absurd hok (by simp)
                | ok h =>
                    obtain ⟨base, fill, hbase⟩ := mkDefaultFilling_shape _ _ _ hmk
                    subst hbase
                    have hfind : findCompatibleHandler arrow_schema (.denseKind rep)
                        [denseTensorHandlerEntry, defaultFillingHandlerEntry] =
                          .ok (some (.defaultFillingDenseTensor base fill)) := by
                      simp [findCompatibleHandler, denseTensorHandlerEntry,
                        defaultFillingHandlerEntry, DenseTensorHandlerCanHandle,
                        DefaultFillingCanHandle, BaseCanHandle,
                        TensorRepresentation.dense_tensor, hfb, hcan, hdv, hmk,
                        Bind.bind, Except.bind]
                    rw [hfind] at hok
                    have ha : a =
                        { arrow_schema := arrow_schema,
                          type_handlers :=
                            [(tensor_name, .defaultFillingDenseTensor base fill)] } := by
                      simpa using hok.symm
                    subst ha
                    exact ⟨base, fun hnone => absurd hnone (by simp),
                      fun dv hdv2 => ⟨fill, rfl⟩⟩

/-- C9 witness: an unset kind fails naming the output; a nest-depth-2 column
requested dense or sparse fails with the no-compatible-handler error; and a
successful dense build without a default value instantiates the plain dense
handler. -/
theorem c9_handler_resolution_witness :
    (TensorAdapter.build
        { arrow_schema := [{ name := "u", type := .list (.list .int64) }],
          tensor_representations := [("tensor", .unset)] } =
      .error (.unableToHandle "tensor" .unset)) ∧
    (TensorAdapter.build
        { arrow_schema := [{ name := "u", type := .list (.list .int64) }],
          tensor_representations :=
            [("tensor", .denseKind { column_name := "u", dims := [],
                                     default_value := none })] } =
      .error (.noCompatibleHandler "tensor"
        (.denseKind { column_name := "u", dims := [], default_value := none })
        [{ name := "u", type := .list (.list .int64) }])) ∧
    (TensorAdapter.build
        { arrow_schema := [{ name := "u", type := .list (.list .int64) }],
          tensor_representations := [("tensor", .varlenSparseKind "u")] } =
      .error (.noCompatibleHandler "tensor" (.varlenSparseKind "u")
        [{ name := "u", type := .list (.list .int64) }])) ∧
    (∃ hd : DenseHandlerData,
      (DenseTensorRep.default_value
          { column_name := "input", dims := [4], default_value := none } = none →
        TensorAdapter.type_handlers
            { arrow_schema := [{ name := "input", type := .list .int64 }],
              type_handlers :=
                [("tensor", .denseTensor { column_index := 0, dtype := .tf_int64,
                                           unbatched_shape := [4],
                                           unbatched_flat_len := 4 })] } =
          [("tensor", .denseTensor hd)]) ∧
      (∀ dv, DenseTensorRep.default_value
          { column_name := "input", dims := [4], default_value := none } = some dv →
        ∃ fill, TensorAdapter.type_handlers
            { arrow_schema := [{ name := "input", type := .list .int64 }],
              type_handlers :=
                [("tensor", .denseTensor { column_index := 0, dtype := .tf_int64,
                                           unbatched_shape := [4],
                                           unbatched_flat_len := 4 })] } =
          [("tensor", .defaultFillingDenseTensor hd fill)])) :=
  ⟨(c9_handler_resolution [{ name := "u", type := .list (.list .int64) }] "tensor").1,
   (c9_handler_resolution [{ name := "u", type := .list (.list .int64) }] "tensor").2.1
     { column_name := "u", dims := [], default_value := none }
     { name := "u", type := .list (.list .int64) } (by rfl) (Or.inl (by decide)),
   (c9_handler_resolution [{ name := "u", type := .list (.list .int64) }] "tensor").2.2.1
     "u" { name := "u", type := .list (.list .int64) } (by rfl) (Or.inl (by decide)),
   (c9_handler_resolution [{ name := "input", type := .list .int64 }] "tensor").2.2.2
     { column_name := "input", dims := [4], default_value := none }
     { arrow_schema := [{ name := "input", type := .list .int64 }],
       type_handlers :=
         [("tensor", .denseTensor { column_index := 0, dtype := .tf_int64,
                                    unbatched_shape := [4],
                                    unbatched_flat_len := 4 })] }
     (by rfl)⟩

end TensorAdapterModel
